import Mathlib

/-!
Verification of the Logflare foreign data wrapper (`logflare_fdw.rs`) and the
`wrappers_fdw` macro glue: a shallow embedding of the JSON-to-cell coercion
engine, the connector construction, the scan lifecycle and the validator,
together with theorems settling the specification's claims about them.

Conventions of the embedding:
* JSON numbers follow `serde_json`: an integer payload (the `PosInt`/`NegInt`
  union, so `as_i64` succeeds exactly on values in the `i64` range) and a
  non-integral double payload carried as its abstract rendering (a `String`);
  `as_i64` never succeeds on the double payload, exactly as in `serde_json`.
* Machine-float values themselves are never computed on (no claim concerns
  them); the `f32` narrowing cast of the source is modelled as carrying the
  payload through unchanged, and `AnyNumeric::try_from` on a finite double is
  modelled as total (JSON cannot denote NaN or infinity).
* A Rust `panic!` (the `column_type_mismatch!` macro and `unwrap`) is the
  `.error` branch of `Except String`; `report_error` is modelled from the
  spec as recording a report for the caller while processing continues.
* `Date::from_str` / `Timestamp::from_str` are external parsers supplied by
  `pgrx`; the embedding is parameterized over them (`Parsers`).
-/

/-- The two error-report channels used by the wrapper, from `PgSqlErrorCode`. -/
inductive PgSqlErrorCode where
  | FDW_ERROR
  | FDW_INVALID_DATA_TYPE
  | FDW_OPTION_NAME_NOT_FOUND
deriving DecidableEq, Repr

/-- One `report_error` call: an error code and a message. -/
structure Reported where
  code : PgSqlErrorCode
  msg : String
deriving DecidableEq, Repr

/-- A single-quote character as a string, used in the wrapper's messages. -/
def squote : String := String.singleton (Char.ofNat 39)

/-- A `serde_json` number: the `PosInt`/`NegInt` integral union carried as an
`Int`, or a non-integral double carried as its abstract rendering. -/
inductive JNum where
  | int (i : Int)
  | double (rep : String)
deriving DecidableEq, Repr

/-- A `serde_json::Value`. Objects keep field order as a list of pairs. -/
inductive JsonValue where
  | null
  | bool (b : Bool)
  | num (n : JNum)
  | str (s : String)
  | arr (xs : List JsonValue)
  | obj (fields : List (String × JsonValue))
deriving Repr

/-- The payload a `Cell::F32`/`F64`/`Numeric` receives from `as_f64`: the exact
integer, or the abstract rendering of a non-integral double. -/
inductive F64Rep where
  | ofInt (i : Int)
  | raw (s : String)
deriving DecidableEq, Repr

namespace JsonValue

/-- `Value::as_object`. -/
def as_object : JsonValue → Option (List (String × JsonValue))
  | .obj fields => some fields
  | _ => none

/-- `Value::as_array`. -/
def as_array : JsonValue → Option (List JsonValue)
  | .arr xs => some xs
  | _ => none

/-- `Value::as_bool`. -/
def as_bool : JsonValue → Option Bool
  | .bool b => some b
  | _ => none

/-- `Value::as_str`. -/
def as_str : JsonValue → Option String
  | .str s => some s
  | _ => none

/-- `Value::as_i64`: succeeds exactly on integral numbers in the `i64` range
(a `PosInt` above `i64::MAX` and every double payload yield `none`). -/
def as_i64 : JsonValue → Option Int
  | .num (.int i) => if -(2 ^ 63) ≤ i ∧ i < 2 ^ 63 then some i else none
  | _ => none

/-- `Value::as_f64`: succeeds on every number. -/
def as_f64 : JsonValue → Option F64Rep
  | .num (.int i) => some (.ofInt i)
  | .num (.double rep) => some (.raw rep)
  | _ => none

/-- `serde_json::Map::get`: field lookup in an object's field list. -/
def jget (fields : List (String × JsonValue)) (name : String) : Option JsonValue :=
  match fields with
  | [] => none
  | (k, v) :: rest => if k = name then some v else jget rest name

end JsonValue

/-- JSON string escaping as `serde_json` serialization performs it. -/
def escapeJsonChar (c : Char) : String :=
  if c = '"' then "\\\""
  else if c = '\\' then "\\\\"
  else if c = Char.ofNat 8 then "\\b"
  else if c = Char.ofNat 9 then "\\t"
  else if c = Char.ofNat 10 then "\\n"
  else if c = Char.ofNat 12 then "\\f"
  else if c = Char.ofNat 13 then "\\r"
  else if c.toNat < 32 then
    "\\u00" ++ String.singleton (Nat.digitChar (c.toNat / 16))
      ++ String.singleton (Nat.digitChar (c.toNat % 16))
  else String.singleton c

/-- A JSON string literal: quotes around the escaped content. -/
def quoteJson (s : String) : String :=
  "\"" ++ String.join (s.toList.map escapeJsonChar) ++ "\""

mutual

/-- `serde_json::Value::to_string`: the compact serialization of a value
(`record.to_string()` in `resp_to_rows`). A double payload prints as its
carried abstract rendering. -/
def JsonValue.to_string : JsonValue → String
  | .null => "null"
  | .bool true => "true"
  | .bool false => "false"
  | .num (.int i) => toString i
  | .num (.double rep) => rep
  | .str s => quoteJson s
  | .arr xs => "[" ++ JsonValue.listToString xs ++ "]"
  | .obj fields => "\x7b" ++ JsonValue.fieldsToString fields ++ "\x7d"

/-- Comma-separated serialization of an array's elements. -/
def JsonValue.listToString : List JsonValue → String
  | [] => ""
  | [x] => JsonValue.to_string x
  | x :: xs => JsonValue.to_string x ++ "," ++ JsonValue.listToString xs

/-- Comma-separated serialization of an object's fields. -/
def JsonValue.fieldsToString : List (String × JsonValue) → String
  | [] => ""
  | [(k, v)] => quoteJson k ++ ":" ++ JsonValue.to_string v
  | (k, v) :: fs => quoteJson k ++ ":" ++ JsonValue.to_string v ++ "," ++ JsonValue.fieldsToString fs

end

/-- A relational cell (`supabase_wrappers::interface::Cell`), one variant per
value kind `resp_to_rows` can produce. Date and timestamp payloads are
whatever the external parsers return. -/
inductive Cell where
  | Bool (b : Bool)
  | I8 (i : Int)
  | I16 (i : Int)
  | F32 (v : F64Rep)
  | I32 (i : Int)
  | F64 (v : F64Rep)
  | I64 (i : Int)
  | Numeric (v : F64Rep)
  | String (s : String)
  | Date (d : Int)
  | Timestamp (t : Int)
deriving DecidableEq, Repr

/-- A target column: its name and declared type oid (`Column`'s ordinal
position field is unused by this wrapper and omitted). -/
structure Column where
  name : String
  type_oid : Nat
deriving DecidableEq, Repr

/-- A row (`supabase_wrappers::interface::Row`): parallel lists of column
names and optional cells, appended to by `push`. -/
structure Row where
  cols : List String
  cells : List (Option Cell)
deriving DecidableEq, Repr

/-- `Row::new`. -/
def Row.new : Row := ⟨[], []⟩

/-- `Row::push`: append a named optional cell. -/
def Row.push (r : Row) (name : String) (cell : Option Cell) : Row :=
  ⟨r.cols ++ [name], r.cells ++ [cell]⟩

/-- The external string parsers `pgrx` supplies to the coercion engine
(`Date::from_str`, `Timestamp::from_str`); the embedding is parameterized
over them. -/
structure Parsers where
  parseDate : String → Option Int
  parseTimestamp : String → Option Int

/-- `pg_sys::BOOLOID`. -/
def BOOLOID : Nat := 16
/-- `pg_sys::CHAROID`. -/
def CHAROID : Nat := 18
/-- `pg_sys::INT8OID`. -/
def INT8OID : Nat := 20
/-- `pg_sys::INT2OID`. -/
def INT2OID : Nat := 21
/-- `pg_sys::INT4OID`. -/
def INT4OID : Nat := 23
/-- `pg_sys::TEXTOID`. -/
def TEXTOID : Nat := 25
/-- `pg_sys::FLOAT4OID`. -/
def FLOAT4OID : Nat := 700
/-- `pg_sys::FLOAT8OID`. -/
def FLOAT8OID : Nat := 701
/-- `pg_sys::DATEOID`. -/
def DATEOID : Nat := 1082
/-- `pg_sys::TIMESTAMPOID`. -/
def TIMESTAMPOID : Nat := 1114
/-- `pg_sys::NUMERICOID`. -/
def NUMERICOID : Nat := 1700

/-- The type oids `resp_to_rows` supports (every non-wildcard arm of its
`match` on `tgt_col.type_oid`). -/
def supportedOids : List Nat :=
  [BOOLOID, CHAROID, INT2OID, FLOAT4OID, INT4OID, FLOAT8OID, INT8OID,
   NUMERICOID, TEXTOID, DATEOID, TIMESTAMPOID]

/-- The `column_type_mismatch!` panic message for a column name. -/
def mismatchMsg (name : String) : String :=
  "column " ++ squote ++ name ++ squote ++ " data type not match"

/-- The unsupported-data-type report message naming the column and its oid. -/
def unsupportedMsg (name : String) (oid : Nat) : String :=
  "column " ++ squote ++ name ++ squote ++ " data type oid " ++ squote ++ toString oid
    ++ squote ++ " is not supported"

/-- The strict coercion of one present source value `v` to the target column's
declared type: the `match tgt_col.type_oid` of `resp_to_rows`. Returns the
reports emitted (`report_error` calls) and either the cell or the
`column_type_mismatch!` panic. The wildcard arm reports an
invalid-data-type error and continues with a dummy `Bool false` cell. -/
def coerceValue (ps : Parsers) (col : Column) (v : JsonValue) :
    List Reported × Except String Cell :=
  if col.type_oid = BOOLOID then
    match v.as_bool with
    | some b => ([], .ok (.Bool b))
    | none => ([], .error (mismatchMsg col.name))
  else if col.type_oid = CHAROID then
    match v.as_i64 with
    | some s =>
        if -(2 ^ 7) ≤ s ∧ s < 2 ^ 7 then ([], .ok (.I8 s))
        else ([], .error (mismatchMsg col.name))
    | none => ([], .error (mismatchMsg col.name))
  else if col.type_oid = INT2OID then
    match v.as_i64 with
    | some s =>
        if -(2 ^ 15) ≤ s ∧ s < 2 ^ 15 then ([], .ok (.I16 s))
        else ([], .error (mismatchMsg col.name))
    | none => ([], .error (mismatchMsg col.name))
  else if col.type_oid = FLOAT4OID then
    match v.as_f64 with
    | some s => ([], .ok (.F32 s))
    | none => ([], .error (mismatchMsg col.name))
  else if col.type_oid = INT4OID then
    match v.as_i64 with
    | some s =>
        if -(2 ^ 31) ≤ s ∧ s < 2 ^ 31 then ([], .ok (.I32 s))
        else ([], .error (mismatchMsg col.name))
    | none => ([], .error (mismatchMsg col.name))
  else if col.type_oid = FLOAT8OID then
    match v.as_f64 with
    | some s => ([], .ok (.F64 s))
    | none => ([], .error (mismatchMsg col.name))
  else if col.type_oid = INT8OID then
    match v.as_i64 with
    | some s => ([], .ok (.I64 s))
    | none => ([], .error (mismatchMsg col.name))
  else if col.type_oid = NUMERICOID then
    match v.as_f64 with
    | some s => ([], .ok (.Numeric s))
    | none => ([], .error (mismatchMsg col.name))
  else if col.type_oid = TEXTOID then
    match v.as_str with
    | some s => ([], .ok (.String s))
    | none => ([], .error (mismatchMsg col.name))
  else if col.type_oid = DATEOID then
    match v.as_str with
    | some s =>
        match ps.parseDate s with
        | some d => ([], .ok (.Date d))
        | none => ([], .error (mismatchMsg col.name))
    | none => ([], .error (mismatchMsg col.name))
  else if col.type_oid = TIMESTAMPOID then
    match v.as_str with
    | some s =>
        match ps.parseTimestamp s with
        | some t => ([], .ok (.Timestamp t))
        | none => ([], .error (mismatchMsg col.name))
    | none => ([], .error (mismatchMsg col.name))
  else
    ([⟨.FDW_INVALID_DATA_TYPE, unsupportedMsg col.name col.type_oid⟩],
     .ok (.Bool false))

/-- The optional cell `resp_to_rows` computes for one target column of one
record: the reserved `_attrs` column yields the serialized whole record; an
absent field yields no cell; a present field goes through `coerceValue`. -/
def cellForCol (ps : Parsers) (record : JsonValue)
    (r : List (String × JsonValue)) (col : Column) :
    List Reported × Except String (Option Cell) :=
  if col.name = "_attrs" then
    ([], .ok (some (.String record.to_string)))
  else
    match JsonValue.jget r col.name with
    | none => ([], .ok none)
    | some v =>
        let (rep, res) := coerceValue ps col v
        (rep, res.map some)

/-- The loop of `resp_to_rows` over the target columns of one record,
accumulating pushes into the row; a panic aborts the remaining columns. -/
def rowCells (ps : Parsers) (record : JsonValue)
    (r : List (String × JsonValue)) :
    List Column → Row → List Reported × Except String Row
  | [], row => ([], .ok row)
  | col :: cols, row =>
    let (rep, res) := cellForCol ps record r col
    match res with
    | .error m => (rep, .error m)
    | .ok cell =>
        let (rep2, res2) := rowCells ps record r cols (row.push col.name cell)
        (rep ++ rep2, res2)

/-- One record's row in `resp_to_rows`: a non-object record leaves the row
empty; an object record is coerced column by column. -/
def rowForRecord (ps : Parsers) (tgt_cols : List Column) (record : JsonValue) :
    List Reported × Except String Row :=
  match record.as_object with
  | none => ([], .ok Row.new)
  | some r => rowCells ps record r tgt_cols Row.new

/-- The map of `resp_to_rows` over the `result` array's records; a panic
aborts the remaining records. -/
def rowsForArr (ps : Parsers) (tgt_cols : List Column) :
    List JsonValue → List Reported × Except String (List Row)
  | [] => ([], .ok [])
  | record :: rest =>
    let (rep, res) := rowForRecord ps tgt_cols record
    match res with
    | .error m => (rep, .error m)
    | .ok row =>
        let (rep2, res2) := rowsForArr ps tgt_cols rest
        match res2 with
        | .error m => (rep ++ rep2, .error m)
        | .ok rows => (rep ++ rep2, .ok (row :: rows))

/-- A parsed URL, carried as its text. -/
structure Url where
  s : String
deriving DecidableEq, Repr

/-- `Url::parse` of the `url` crate, modelled at its interface: an absolute
URL must start with a scheme — an ASCII-alphabetic character, then a run of
characters from `[a-zA-Z0-9+.-]`, then a colon; a string with no such prefix
(a relative URL with no base) fails to parse. Further validation the crate
performs past the scheme is not modelled; every claim conditions on the
parse outcome. -/
def schemeChar (c : Char) : Bool :=
  c.isAlpha || c.isDigit || c = '+' || c = '-' || c = '.'

/-- Whether a character list starts with the remainder of a scheme followed
by a colon. -/
def schemeTail : List Char → Bool
  | [] => false
  | c :: cs => if c = ':' then true else if schemeChar c then schemeTail cs else false

/-- `Url::parse`, see `schemeChar`. -/
def Url.parse (s : String) : Option Url :=
  match s.toList with
  | [] => none
  | c :: cs => if c.isAlpha && schemeTail cs then some ⟨s⟩ else none

/-- `Url::join`: the base URL always ends with `/` here, so joining a
relative endpoint appends it. (The crate's full relative-reference
resolution is not modelled; no claim depends on the joined URL.) -/
def Url.join (u : Url) (ep : String) : Url :=
  ⟨u.s ++ ep⟩

/-- An authenticated client, carrying the api key its `x-api-key` header was
built from (`create_client`). Header-value validation by the HTTP library is
not modelled. -/
def create_client (api_key : String) : String :=
  api_key

/-- Rust `str::ends_with('/')`: the last character is a slash.
(`String.endsWith` itself does not reduce in the kernel.) -/
def endsWithSlash (s : String) : Bool :=
  match s.toList.getLast? with
  | some c => c = '/'
  | none => false

/-- Connector options (`&HashMap<String, String>`), as an association list. -/
def optGet (options : List (String × String)) (name : String) : Option String :=
  match options with
  | [] => none
  | (k, v) :: rest => if k = name then some v else optGet rest name

/-- Modelled from the spec: `require_option` (from the `supabase_wrappers`
crate, not under `src/`) returns the named option when present and `none`
otherwise, upon which the calling phase degrades — begin-scan aborts early
leaving the result buffer unset, and construction proceeds with no client
(spec 4.2 and 4.6). -/
def require_option (name : String) (options : List (String × String)) :
    Option String :=
  optGet options name

/-- The connector state (`struct LogflareFdw`). The `rt` bridge field drives
network futures and carries no observable state; it is omitted. The client
is `some` the api key when one was resolved. -/
structure LogflareFdw where
  base_url : Url
  client : Option String
  scan_result : Option (List Row)
deriving DecidableEq, Repr

namespace LogflareFdw

/-- `LogflareFdw::BASE_URL`. -/
def BASE_URL : String := "https://api.logflare.app/api/endpoints/query/"

/-- The credential resolution inside `new`: the literal `api_key` option
takes the first match arm; otherwise `api_key_id` is looked up in the vault
(`get_vault_secret`, modelled as the secret-store collaborator function
`vault`). Returns the optional client and the list of vault keys accessed. -/
def resolveClient (vault : String → Option String)
    (options : List (String × String)) : Option String × List String :=
  match optGet options "api_key" with
  | some api_key => (some (create_client api_key), [])
  | none =>
      match require_option "api_key_id" options with
      | none => (none, [])
      | some key_id => ((vault key_id).map create_client, [key_id])

/-- `LogflareFdw::new`: normalize `api_url` to end with `/` (defaulting to
`BASE_URL`), resolve the credential, then `Url::parse(&base_url).unwrap()` —
the `.error` branch is that unwrap's panic. Also returns the vault keys
accessed. -/
def new (vault : String → Option String)
    (options : List (String × String)) :
    Except String LogflareFdw × List String :=
  let base_url :=
    match optGet options "api_url" with
    | some s => if endsWithSlash s then s else s ++ "/"
    | none => BASE_URL
  let (client, accesses) := resolveClient vault options
  match Url.parse base_url with
  | none => (.error "base url parse failed", accesses)
  | some u => (.ok ⟨u, client, none⟩, accesses)

end LogflareFdw

/-- The body of an HTTP response as `resp.json()` sees it: a parsed JSON
value, or a parse failure. -/
inductive RespBody where
  | parsed (v : JsonValue)
  | parseErr (e : String)

/-- What one request produces: a transport failure surviving the retries, or
a response with a status code and a body. -/
inductive HttpResult where
  | transportErr (e : String)
  | resp (status : Nat) (body : RespBody)

/-- The outcome of a scan phase: the state and the reports emitted, or a
panic with the state at the point the panic was raised. -/
inductive Outcome where
  | ok (st : LogflareFdw) (reported : List Reported)
  | panicked (msg : String) (st : LogflareFdw) (reported : List Reported)
deriving Repr

namespace LogflareFdw

/-- `resp_to_rows`: assigns `scan_result` from the body's `result` array
mapped through the coercion engine; a missing/ill-shaped `result` assigns
`none`, and a coercion panic leaves `scan_result` unassigned. -/
def resp_to_rows (ps : Parsers) (st : LogflareFdw) (body : JsonValue)
    (tgt_cols : List Column) : Outcome :=
  match (body.as_object.bind fun o => JsonValue.jget o "result").bind
      JsonValue.as_array with
  | none => .ok { st with scan_result := none } []
  | some arr =>
      match rowsForArr ps tgt_cols arr with
      | (rep, .error m) => .panicked m st rep
      | (rep, .ok rows) => .ok { st with scan_result := some rows } rep

/-- `begin_scan`. The HTTP exchange is a parameter (`http`): it is what the
single `client.get(url).send()` call would return. A missing `endpoint`
option or a missing client returns with no request made; a 404 response
returns silently; another 4xx/5xx response reports a request error
(`resp.error_for_status()`); a body that fails JSON parsing panics (the
`unwrap` on `resp.json()`); a parsed body goes through `resp_to_rows`. -/
def begin_scan (ps : Parsers) (http : HttpResult) (st : LogflareFdw)
    (columns : List Column) (options : List (String × String)) : Outcome :=
  match require_option "endpoint" options with
  | none => .ok st []
  | some endpoint =>
      match st.client with
      | none => .ok st []
      | some _client =>
          let _url := st.base_url.join endpoint
          match http with
          | .transportErr e => .ok st [⟨.FDW_ERROR, "request failed: " ++ e⟩]
          | .resp status body =>
              if status = 404 then .ok st []
              else if 400 ≤ status ∧ status ≤ 599 then
                .ok st [⟨.FDW_ERROR,
                  "request failed: status " ++ toString status⟩]
              else
                match body with
                | .parseErr e => .panicked ("json parse failed: " ++ e) st []
                | .parsed v => resp_to_rows ps st v columns

/-- `iter_scan`: pops the front row of a non-empty buffer
(`result.drain(0..1).last()`); otherwise returns nothing and leaves the
state unchanged. The popped row is returned directly (the Rust code writes
it into the caller's row via `replace_with`). -/
def iter_scan (st : LogflareFdw) : Option Row × LogflareFdw :=
  match st.scan_result with
  | some (r :: rest) => (some r, { st with scan_result := some rest })
  | some [] => (none, st)
  | none => (none, st)

/-- `end_scan`: `self.scan_result.take()`. -/
def end_scan (st : LogflareFdw) : LogflareFdw :=
  { st with scan_result := none }

end LogflareFdw

/-- `pg_sys::ForeignTableRelationId`. -/
def FOREIGN_TABLE_RELATION_ID : Nat := 3118

/-- Modelled from the spec: `check_options_contain` (from the
`supabase_wrappers` crate, not under `src/`) checks at definition time that
the required option is present among the raw `name=value` option strings,
reporting a definition-time failure when absent (spec 4.7). -/
def check_options_contain (options : List (Option String)) (tgt : String) :
    List Reported :=
  if options.any fun opt =>
      match opt with
      | some s => s.startsWith (tgt ++ "=")
      | none => false
  then []
  else [⟨.FDW_OPTION_NAME_NOT_FOUND,
    "required option " ++ squote ++ tgt ++ squote ++ " is not specified"⟩]

/-- `LogflareFdw::validator`: for a foreign-table object kind, require the
`endpoint` option; for any other catalog oid, or none, no check runs. -/
def LogflareFdw.validator (options : List (Option String))
    (catalog : Option Nat) : List Reported :=
  match catalog with
  | some oid =>
      if oid = FOREIGN_TABLE_RELATION_ID then
        check_options_contain options "endpoint"
      else []
  | none => []

/-- A concrete parser pair for witnesses: both external parsers reject. -/
def ps0 : Parsers := ⟨fun _ => none, fun _ => none⟩

/-- A concrete empty secret store for witnesses. -/
def vault0 : String → Option String := fun _ => none

/-- The wrapper's default base URL has a scheme, so it parses. -/
theorem base_url_parses :
    Url.parse LogflareFdw.BASE_URL = some ⟨LogflareFdw.BASE_URL⟩ := rfl

/-- C8: `iter_scan` pops exactly the front row of a non-empty buffer (FIFO);
on an exhausted buffer or when no buffer was ever produced it returns
nothing and leaves the state unchanged; `end_scan` unconditionally clears
the buffer (safe with no prior scan), after which `iter_scan` again returns
nothing with the state unchanged. -/
theorem iter_scan_fifo_drain_idempotent (st : LogflareFdw) (r : Row)
    (rest : List Row) :
    (st.scan_result = some (r :: rest) →
      LogflareFdw.iter_scan st = (some r, { st with scan_result := some rest })) ∧
    (st.scan_result = some [] ∨ st.scan_result = none →
      LogflareFdw.iter_scan st = (none, st)) ∧
    (LogflareFdw.end_scan st).scan_result = none ∧
    LogflareFdw.iter_scan (LogflareFdw.end_scan st) =
      (none, LogflareFdw.end_scan st) := by
  refine ⟨fun h => ?_, fun h => ?_, rfl, ?_⟩
  · simp [LogflareFdw.iter_scan, h]
  · rcases h with h | h <;> simp [LogflareFdw.iter_scan, h]
  · simp [LogflareFdw.iter_scan, LogflareFdw.end_scan]

/-- Witness for C8 at a two-row buffer. -/
theorem iter_scan_fifo_drain_idempotent_witness :
    (LogflareFdw.iter_scan ⟨⟨"u"⟩, none, some [⟨["a"], [none]⟩, ⟨["b"], [none]⟩]⟩ =
      (some ⟨["a"], [none]⟩, ⟨⟨"u"⟩, none, some [⟨["b"], [none]⟩]⟩)) ∧
    (LogflareFdw.iter_scan ⟨⟨"u"⟩, none, some []⟩ = (none, ⟨⟨"u"⟩, none, some []⟩)) ∧
    (LogflareFdw.end_scan ⟨⟨"u"⟩, none, some []⟩).scan_result = none :=
  ⟨(iter_scan_fifo_drain_idempotent ⟨⟨"u"⟩, none, some [⟨["a"], [none]⟩, ⟨["b"], [none]⟩]⟩
      ⟨["a"], [none]⟩ [⟨["b"], [none]⟩]).1 rfl,
   (iter_scan_fifo_drain_idempotent ⟨⟨"u"⟩, none, some []⟩ ⟨["a"], [none]⟩ []).2.1
      (Or.inl rfl),
   (iter_scan_fifo_drain_idempotent ⟨⟨"u"⟩, none, some []⟩ ⟨["a"], [none]⟩ []).2.2.1⟩

/-- C1: a begin-scan whose request draws a 404 response returns with no
panic and no error report, leaving the row buffer unset, so iterating
returns nothing (and leaves the state fixed). Holds for a connector whose
buffer is unset at entry (a fresh or ended scan), with a client and an
`endpoint` option so that the request is actually issued. -/
theorem begin_scan_404_leaves_buffer_empty (ps : Parsers) (st : LogflareFdw)
    (cols : List Column) (opts : List (String × String)) (body : RespBody)
    (k ep : String) (hbuf : st.scan_result = none) (hcli : st.client = some k)
    (hep : optGet opts "endpoint" = some ep) :
    LogflareFdw.begin_scan ps (.resp 404 body) st cols opts = .ok st [] ∧
    LogflareFdw.iter_scan st = (none, st) := by
  constructor
  · simp [LogflareFdw.begin_scan, require_option, hep, hcli]
  · simp [LogflareFdw.iter_scan, hbuf]

/-- Witness for C1: a 404 with an unparseable body still yields the silent
empty outcome. -/
theorem begin_scan_404_leaves_buffer_empty_witness :
    LogflareFdw.begin_scan ps0 (.resp 404 (.parseErr "x"))
        ⟨⟨"https://x/"⟩, some "k", none⟩ [] [("endpoint", "e")] =
      .ok ⟨⟨"https://x/"⟩, some "k", none⟩ [] ∧
    LogflareFdw.iter_scan ⟨⟨"https://x/"⟩, some "k", none⟩ =
      (none, ⟨⟨"https://x/"⟩, some "k", none⟩) :=
  begin_scan_404_leaves_buffer_empty ps0 ⟨⟨"https://x/"⟩, some "k", none⟩ []
    [("endpoint", "e")] (.parseErr "x") "k" "e" rfl rfl rfl

/-- C2 counterexample: for target column `id` of type `int4` and the source
record `{}` (no `id` field), coercion does not fail — it produces a row
whose `id` cell is null, contradicting the claim that a missing field
surfaces a type-mismatch failure. -/
theorem missing_field_yields_null_cell_cex :
    rowForRecord ps0 [⟨"id", INT4OID⟩] (JsonValue.obj []) =
      ([], .ok ⟨["id"], [none]⟩) := rfl

/-- C2 amended: for every target column other than `_attrs` whose name has
no field in the source record, coercion succeeds with a null (absent) cell
for that column and reports nothing; missing fields never raise the
type-mismatch panic. -/
theorem missing_field_yields_null_cell (ps : Parsers) (record : JsonValue)
    (r : List (String × JsonValue)) (col : Column)
    (hname : col.name ≠ "_attrs") (habsent : JsonValue.jget r col.name = none) :
    cellForCol ps record r col = ([], .ok none) := by
  simp [cellForCol, hname, habsent]

/-- Witness for the amended C2. -/
theorem missing_field_yields_null_cell_witness :
    cellForCol ps0 (JsonValue.obj [("x", .num (.int 1))])
        [("x", .num (.int 1))] ⟨"id", INT4OID⟩ = ([], .ok none) :=
  missing_field_yields_null_cell ps0 (JsonValue.obj [("x", .num (.int 1))])
    [("x", .num (.int 1))] ⟨"id", INT4OID⟩ (by decide) rfl

/-- C3: coercion is strict. For the narrow integer targets `char`/`int2`/
`int4`, a source value whose exact `i64` reading is absent (a non-number, a
non-integral double, or an integer outside the `i64` range) or lies outside
the target's bit width raises the type-mismatch panic — no truncation or
defaulting; for a `text` target, a non-string source raises the same panic. -/
theorem coercion_strict_on_width_and_string (ps : Parsers) (col : Column)
    (v : JsonValue) :
    (col.type_oid = CHAROID →
      (∀ s, v.as_i64 = some s → s < -(2 ^ 7) ∨ 2 ^ 7 ≤ s) →
      coerceValue ps col v = ([], .error (mismatchMsg col.name))) ∧
    (col.type_oid = INT2OID →
      (∀ s, v.as_i64 = some s → s < -(2 ^ 15) ∨ 2 ^ 15 ≤ s) →
      coerceValue ps col v = ([], .error (mismatchMsg col.name))) ∧
    (col.type_oid = INT4OID →
      (∀ s, v.as_i64 = some s → s < -(2 ^ 31) ∨ 2 ^ 31 ≤ s) →
      coerceValue ps col v = ([], .error (mismatchMsg col.name))) ∧
    (col.type_oid = TEXTOID → v.as_str = none →
      coerceValue ps col v = ([], .error (mismatchMsg col.name))) := by
  refine ⟨fun hoid hs => ?_, fun hoid hs => ?_, fun hoid hs => ?_,
    fun hoid hstr => ?_⟩
  · cases hv : v.as_i64 with
    | none =>
      simp [coerceValue, hoid, hv, BOOLOID, CHAROID]
    | some s =>
      have hfit : ¬(-(2 ^ 7 : Int) ≤ s ∧ s < 2 ^ 7) := by
        have := hs s hv; omega
      simp [coerceValue, hoid, hv, hfit, BOOLOID, CHAROID]
      omega
  · cases hv : v.as_i64 with
    | none =>
      simp [coerceValue, hoid, hv, BOOLOID, CHAROID, INT2OID]
    | some s =>
      have hfit : ¬(-(2 ^ 15 : Int) ≤ s ∧ s < 2 ^ 15) := by
        have := hs s hv; omega
      simp [coerceValue, hoid, hv, hfit, BOOLOID, CHAROID, INT2OID]
      omega
  · cases hv : v.as_i64 with
    | none =>
      simp [coerceValue, hoid, hv, BOOLOID, CHAROID, INT2OID, FLOAT4OID, INT4OID]
    | some s =>
      have hfit : ¬(-(2 ^ 31 : Int) ≤ s ∧ s < 2 ^ 31) := by
        have := hs s hv; omega
      simp [coerceValue, hoid, hv, hfit, BOOLOID, CHAROID, INT2OID, FLOAT4OID,
        INT4OID]
      omega
  · simp [coerceValue, hoid, hstr, BOOLOID, CHAROID, INT2OID, FLOAT4OID,
      INT4OID, FLOAT8OID, INT8OID, NUMERICOID, TEXTOID]

/-- Witness for C3: `40000` does not fit `int2`, so its coercion panics. -/
theorem coercion_strict_on_width_and_string_witness :
    coerceValue ps0 ⟨"a", INT2OID⟩ (JsonValue.num (.int 40000)) =
      ([], .error (mismatchMsg "a")) :=
  (coercion_strict_on_width_and_string ps0 ⟨"a", INT2OID⟩
      (JsonValue.num (.int 40000))).2.1 rfl
    (by intro s hs; simp [JsonValue.as_i64] at hs; omega)

/-- C6: a target column named `_attrs` always yields a string cell holding
the serialized whole source record — for every declared type oid and
independently of the record's fields (no lookup in `r`, no coercion). -/
theorem attrs_column_passthrough (ps : Parsers) (record : JsonValue)
    (r : List (String × JsonValue)) (col : Column)
    (hname : col.name = "_attrs") :
    cellForCol ps record r col =
      ([], .ok (some (.String record.to_string))) := by
  simp [cellForCol, hname]

/-- Witness for C6: `_attrs` declared as `int2`, over a record that even has
an `_attrs` field of its own; the cell is still the serialized record. -/
theorem attrs_column_passthrough_witness :
    cellForCol ps0 (JsonValue.obj [("x", .num (.int 1))])
        [("_attrs", .bool true), ("x", .num (.int 1))] ⟨"_attrs", INT2OID⟩ =
      ([], .ok (some (.String "\x7b\"x\":1\x7d"))) :=
  attrs_column_passthrough ps0 (JsonValue.obj [("x", .num (.int 1))])
    [("_attrs", .bool true), ("x", .num (.int 1))] ⟨"_attrs", INT2OID⟩ rfl

/-- C7: a present field under a target column whose declared type is not
supported yields an invalid-data-type report built from the column name and
its oid, together with the dummy `Bool false` cell, and no panic — so the
remaining columns of the row keep being processed (second conjunct). -/
theorem unsupported_type_reports_and_continues (ps : Parsers)
    (record : JsonValue) (r : List (String × JsonValue)) (col : Column)
    (v : JsonValue) (hname : col.name ≠ "_attrs")
    (hoid : col.type_oid ∉ supportedOids)
    (hfield : JsonValue.jget r col.name = some v) :
    cellForCol ps record r col =
      ([⟨.FDW_INVALID_DATA_TYPE, unsupportedMsg col.name col.type_oid⟩],
       .ok (some (.Bool false))) ∧
    ∀ rest row, rowCells ps record r (col :: rest) row =
      (⟨.FDW_INVALID_DATA_TYPE, unsupportedMsg col.name col.type_oid⟩ ::
          (rowCells ps record r rest
            (row.push col.name (some (.Bool false)))).1,
       (rowCells ps record r rest
          (row.push col.name (some (.Bool false)))).2) := by
  simp only [supportedOids, List.mem_cons, List.mem_singleton, BOOLOID,
    CHAROID, INT2OID, FLOAT4OID, INT4OID, FLOAT8OID, INT8OID, NUMERICOID,
    TEXTOID, DATEOID, TIMESTAMPOID, not_or] at hoid
  obtain ⟨h16, h18, h21, h700, h23, h701, h20, h1700, h25, h1082, h1114⟩ := hoid
  have hcell : cellForCol ps record r col =
      ([⟨.FDW_INVALID_DATA_TYPE, unsupportedMsg col.name col.type_oid⟩],
       .ok (some (.Bool false))) := by
    simp [cellForCol, hname, hfield, coerceValue, BOOLOID, CHAROID, INT2OID,
      FLOAT4OID, INT4OID, FLOAT8OID, INT8OID, NUMERICOID, TEXTOID, DATEOID,
      TIMESTAMPOID, h16, h18, h21, h700, h23, h701, h20, h1700, h25, h1082,
      h1114, Except.map]
  refine ⟨hcell, fun rest row => ?_⟩
  simp [rowCells, hcell]

/-- Witness for C7 at the `varchar` oid 1043, with a following `int4` column
that is still processed. -/
theorem unsupported_type_reports_and_continues_witness :
    cellForCol ps0 (JsonValue.obj [("x", .num (.int 1))])
        [("x", .num (.int 1))] ⟨"x", 1043⟩ =
      ([⟨.FDW_INVALID_DATA_TYPE, unsupportedMsg "x" 1043⟩],
       .ok (some (.Bool false))) :=
  (unsupported_type_reports_and_continues ps0 (JsonValue.obj [("x", .num (.int 1))])
      [("x", .num (.int 1))] ⟨"x", 1043⟩ (.num (.int 1)) (by decide) (by decide)
      rfl).1

/-- C4: with the default base URL, a literal `api_key` option builds the
client from that value verbatim with no secret-store access — even when
`api_key_id` is also present; with only `api_key_id`, the store is consulted
once for that id, and a failed lookup still constructs the connector,
merely with no client. -/
theorem credential_precedence (vault : String → Option String)
    (opts : List (String × String)) (hurl : optGet opts "api_url" = none) :
    (∀ k, optGet opts "api_key" = some k →
      LogflareFdw.new vault opts =
        (.ok ⟨⟨LogflareFdw.BASE_URL⟩, some (create_client k), none⟩, [])) ∧
    (optGet opts "api_key" = none → ∀ kid, optGet opts "api_key_id" = some kid →
      LogflareFdw.new vault opts =
        (.ok ⟨⟨LogflareFdw.BASE_URL⟩, (vault kid).map create_client, none⟩,
         [kid])) := by
  constructor
  · intro k hk
    simp [LogflareFdw.new, LogflareFdw.resolveClient, hurl, hk,
      base_url_parses]
  · intro hk kid hkid
    simp [LogflareFdw.new, LogflareFdw.resolveClient, require_option, hurl,
      hk, hkid, base_url_parses]

/-- Witness for C4 with both credential options present: the literal wins
and the (empty) store is never consulted. -/
theorem credential_precedence_witness :
    LogflareFdw.new vault0 [("api_key", "k"), ("api_key_id", "kid")] =
      (.ok ⟨⟨LogflareFdw.BASE_URL⟩, some "k", none⟩, []) :=
  (credential_precedence vault0 [("api_key", "k"), ("api_key_id", "kid")]
      rfl).1 "k" rfl

/-- C5: a begin-scan whose response has a successful (2xx) status but an
unparseable body panics with the parse failure — in `pgrx` a panic is
converted to the query-level error the caller sees — with the row buffer
still unset, so the scan yields no rows and no partial result. -/
theorem json_parse_failure_is_scan_error (ps : Parsers) (st : LogflareFdw)
    (cols : List Column) (opts : List (String × String)) (k ep e : String)
    (status : Nat) (hcli : st.client = some k)
    (hep : optGet opts "endpoint" = some ep) (hbuf : st.scan_result = none)
    (h2 : 200 ≤ status) (h3 : status < 300) :
    LogflareFdw.begin_scan ps (.resp status (.parseErr e)) st cols opts =
      .panicked ("json parse failed: " ++ e) st [] ∧
    LogflareFdw.iter_scan st = (none, st) := by
  constructor
  · have h404 : ¬(status = 404) := by omega
    have herr : ¬(400 ≤ status ∧ status ≤ 599) := by omega
    simp [LogflareFdw.begin_scan, require_option, hep, hcli, h404, herr]
  · simp [LogflareFdw.iter_scan, hbuf]

/-- Witness for C5 at status 200. -/
theorem json_parse_failure_is_scan_error_witness :
    LogflareFdw.begin_scan ps0 (.resp 200 (.parseErr "bad"))
        ⟨⟨"https://x/"⟩, some "k", none⟩ [] [("endpoint", "e")] =
      .panicked ("json parse failed: " ++ "bad")
        ⟨⟨"https://x/"⟩, some "k", none⟩ [] ∧
    LogflareFdw.iter_scan ⟨⟨"https://x/"⟩, some "k", none⟩ =
      (none, ⟨⟨"https://x/"⟩, some "k", none⟩) :=
  json_parse_failure_is_scan_error ps0 ⟨⟨"https://x/"⟩, some "k", none⟩ []
    [("endpoint", "e")] "k" "e" "bad" 200 rfl rfl rfl (by omega) (by omega)

/-- C9: at definition time, the foreign-table object kind requires the
`endpoint` option — its presence passes, its absence is a definition-time
failure report — while any other catalog oid, or no catalog, checks
nothing. -/
theorem validator_requires_endpoint_for_foreign_table
    (opts : List (Option String)) (oid : Nat) :
    ((opts.any fun opt =>
        match opt with
        | some s => s.startsWith "endpoint="
        | none => false) = true →
      LogflareFdw.validator opts (some FOREIGN_TABLE_RELATION_ID) = []) ∧
    ((opts.any fun opt =>
        match opt with
        | some s => s.startsWith "endpoint="
        | none => false) = false →
      LogflareFdw.validator opts (some FOREIGN_TABLE_RELATION_ID) =
        [⟨.FDW_OPTION_NAME_NOT_FOUND,
          "required option " ++ squote ++ "endpoint" ++ squote
            ++ " is not specified"⟩]) ∧
    (oid ≠ FOREIGN_TABLE_RELATION_ID →
      LogflareFdw.validator opts (some oid) = []) ∧
    LogflareFdw.validator opts none = [] := by
  refine ⟨fun h => ?_, fun h => ?_, fun h => ?_, rfl⟩
  · simp [LogflareFdw.validator, check_options_contain, h]
  · simp [LogflareFdw.validator, check_options_contain, h]
  · simp [LogflareFdw.validator, h]

/-- Witness for C9: an option list without `endpoint` fails for the
foreign-table kind and passes for another catalog oid. -/
theorem validator_requires_endpoint_for_foreign_table_witness :
    LogflareFdw.validator [some "other=1"] (some FOREIGN_TABLE_RELATION_ID) =
      [⟨.FDW_OPTION_NAME_NOT_FOUND,
        "required option " ++ squote ++ "endpoint" ++ squote
          ++ " is not specified"⟩] ∧
    LogflareFdw.validator [some "other=1"] (some 42) = [] :=
  ⟨(validator_requires_endpoint_for_foreign_table [some "other=1"] 42).2.1
      (by decide),
   (validator_requires_endpoint_for_foreign_table [some "other=1"] 42).2.2.1
      (by decide)⟩

/-- C10: construction is not total. When the `api_url` option, after
trailing-slash normalization, fails URL parsing, `new` panics on the
`unwrap`; when `api_url` is absent the constant default (which ends in `/`)
is used and construction succeeds for every credential configuration. -/
theorem new_panics_on_unparseable_api_url (vault : String → Option String)
    (opts : List (String × String)) :
    (∀ s, optGet opts "api_url" = some s →
      Url.parse (if endsWithSlash s then s else s ++ "/") = none →
      (LogflareFdw.new vault opts).1 = .error "base url parse failed") ∧
    (optGet opts "api_url" = none →
      (LogflareFdw.new vault opts).1 =
        .ok ⟨⟨LogflareFdw.BASE_URL⟩,
          (LogflareFdw.resolveClient vault opts).1, none⟩ ∧
      endsWithSlash LogflareFdw.BASE_URL = true) := by
  constructor
  · intro s hs hparse
    simp [LogflareFdw.new, hs, hparse]
  · intro hurl
    refine ⟨?_, by decide⟩
    simp [LogflareFdw.new, hurl, base_url_parses]

/-- Witness for C10: `api_url = "not a url"` has no scheme, so `new`
panics; without `api_url` the same credential options construct fine. -/
theorem new_panics_on_unparseable_api_url_witness :
    (LogflareFdw.new vault0 [("api_url", "not a url")]).1 =
      .error "base url parse failed" ∧
    (LogflareFdw.new vault0 []).1 =
      .ok ⟨⟨LogflareFdw.BASE_URL⟩, none, none⟩ :=
  ⟨(new_panics_on_unparseable_api_url vault0 [("api_url", "not a url")]).1
      "not a url" rfl (by decide),
   ((new_panics_on_unparseable_api_url vault0 []).2 rfl).1⟩
